import Mathlib

/-!
Shallow embedding of `src/app.py` (the Story Maker Streamlit script).

One execution of the script is modelled as a pure function `runScript`
from the inputs that vary between runs (the outcome of the one-time model
load, the widget values, the previous session state) to a record of the
observable effects of the run (provider calls made, new session state,
warnings and errors shown, the story text displayed, whether the script
halted before rendering the input controls).
-/

namespace StoryApp

/-- One invocation of the `story_generator` pipeline, recording every
argument the script passes at `app.py` lines 113-118:
`story_generator(prompt, max_length=..., num_return_sequences=1,
temperature=..., do_sample=True)`. -/
structure ProviderCall where
  prompt : String
  max_length : ℕ
  num_return_sequences : ℕ
  temperature : ℚ
  do_sample : Bool
deriving Repr, DecidableEq

/-- The text-generation pipeline, abstracted: given the call arguments it
either raises (error message) or returns the list of generated sequences
(each represented by its `generated_text` field). -/
def Provider : Type := ProviderCall → Except String (List String)

/-- Python truthiness of a string (`if prompt:` at line 108 and
`if ... st.session_state[ ... ]:` at line 131): true iff non-empty. -/
def strTruthy (s : String) : Bool := s != ""

/-- Model of `st.slider` over integers (`max_length` slider, lines 50-57):
the widget can only yield a value inside `[minV, maxV]`, modelled as
clamping the raw user choice into that range. -/
def sliderNat (minV maxV raw : ℕ) : ℕ := Nat.max minV (Nat.min maxV raw)

/-- Model of `st.slider` over floats (`creativity` slider, lines 60-67):
the widget can only yield a value inside `[minV, maxV]`, modelled as
clamping the raw user choice into that range. -/
def sliderRat (minV maxV raw : ℚ) : ℚ := max minV (min maxV raw)

/-- Outcome of evaluating the expression
`story_generator(...)[0][ ... generated_text ... ]` (lines 113-119):
a pipeline error propagates; on success the first sequence is taken, and
an empty sequence list raises a Python IndexError. -/
def callResult (p : Provider) (c : ProviderCall) : Except String String :=
  match p c with
  | .error e => .error e
  | .ok seqs =>
      match seqs.head? with
      | some t => .ok t
      | none => .error "list index out of range"

/-- The single provider call the script can make in one run, with the
slider-clamped parameters (lines 113-118). -/
def theCall (prompt : String) (lengthInput : ℕ) (creativityInput : ℚ) :
    ProviderCall :=
  { prompt := prompt
    max_length := sliderNat 50 300 lengthInput
    num_return_sequences := 1
    temperature := sliderRat (1/2) (3/2) creativityInput
    do_sample := true }

/-- The generation block of the script (lines 107-128): given the provider,
the button state, the prompt and the clamped parameters, returns
(new session story, provider calls made, warnings shown, errors shown). -/
def submitStep (p : Provider) (generate_button : Bool) (prompt : String)
    (max_length : ℕ) (creativity : ℚ) (prevStory : Option String) :
    Option String × List ProviderCall × List String × List String :=
  if generate_button then
    if strTruthy prompt then
      let c : ProviderCall :=
        { prompt := prompt, max_length := max_length,
          num_return_sequences := 1, temperature := creativity,
          do_sample := true }
      match callResult p c with
      | .ok generated_story => (some generated_story, [c], [], [])
      | .error e => (prevStory, [c], [], ["An error occurred: " ++ e])
    else
      (prevStory, [], ["Please enter your story idea first!"], [])
  else
    (prevStory, [], [], [])

/-- The story display block (lines 130-135): the story is rendered iff the
session holds one and it is truthy (non-empty). -/
def renderDisplay (story : Option String) : Option String :=
  match story with
  | some s => if strTruthy s then some s else none
  | none => none

/-- The observable effects of one run of the script. -/
structure ScriptOutput where
  /-- `st.stop()` was reached (line 34). -/
  halted : Bool
  /-- The sliders, text area and button were rendered (lines 50-100). -/
  controlsRendered : Bool
  /-- Provider calls made during the run, in order. -/
  calls : List ProviderCall
  /-- `st.session_state` story slot after the run (`none` = key absent). -/
  story : Option String
  /-- Texts shown via `st.warning`. -/
  warnings : List String
  /-- Texts shown via `st.error`. -/
  errors : List String
  /-- Story text rendered by the display block, if any. -/
  displayedStory : Option String
deriving Repr, DecidableEq

/-- One full run of `src/app.py`: model load (lines 29-34), widgets
(lines 50-100), generation logic (lines 107-128), display (lines 130-135).
`loadResult` is the outcome of `load_story_generator()`; on failure the
script shows an error and stops before rendering any input control. -/
def runScript (loadResult : Except String Provider) (generate_button : Bool)
    (promptInput : String) (lengthInput : ℕ) (creativityInput : ℚ)
    (prevStory : Option String) : ScriptOutput :=
  match loadResult with
  | .error e =>
      { halted := true
        controlsRendered := false
        calls := []
        story := prevStory
        warnings := []
        errors :=
          ["Error: Could not load the story engine. Please refresh. Details: "
            ++ e]
        displayedStory := none }
  | .ok p =>
      let s := submitStep p generate_button promptInput
        (sliderNat 50 300 lengthInput) (sliderRat (1/2) (3/2) creativityInput)
        prevStory
      { halted := false
        controlsRendered := true
        calls := s.2.1
        story := s.1
        warnings := s.2.2.1
        errors := s.2.2.2
        displayedStory := renderDisplay s.1 }

/-- A prompt is whitespace-only when every character is whitespace
(vacuously true for the empty prompt). -/
def whitespaceOnly (s : String) : Bool := s.data.all Char.isWhitespace

/-! Basic lemmas about the embedding. -/

theorem strTruthy_eq_true (s : String) : strTruthy s = true ↔ s ≠ "" := by
  simp [strTruthy]

theorem sliderNat_eq (minV maxV raw : ℕ) (h1 : minV ≤ raw) (h2 : raw ≤ maxV) :
    sliderNat minV maxV raw = raw := by
  simp only [sliderNat, Nat.max_def, Nat.min_def]
  split_ifs <;> omega

theorem sliderNat_le (minV maxV raw : ℕ) (h : minV ≤ maxV) :
    minV ≤ sliderNat minV maxV raw ∧ sliderNat minV maxV raw ≤ maxV := by
  simp only [sliderNat, Nat.max_def, Nat.min_def]
  split_ifs <;> omega

theorem sliderRat_eq (minV maxV raw : ℚ) (h1 : minV ≤ raw) (h2 : raw ≤ maxV) :
    sliderRat minV maxV raw = raw := by
  unfold sliderRat
  rw [min_eq_right h2, max_eq_right h1]

theorem sliderRat_le (minV maxV raw : ℚ) (h : minV ≤ maxV) :
    minV ≤ sliderRat minV maxV raw ∧ sliderRat minV maxV raw ≤ maxV :=
  ⟨le_max_left _ _, max_le h (min_le_left _ _)⟩

theorem callResult_cons (p : Provider) (c : ProviderCall) (t : String)
    (rest : List String) (h : p c = .ok (t :: rest)) :
    callResult p c = .ok t := by
  simp [callResult, h]

theorem submitStep_success (p : Provider) (prompt : String) (ml : ℕ) (cr : ℚ)
    (prev : Option String) (t : String) (h : strTruthy prompt = true)
    (hres : callResult p
      { prompt := prompt, max_length := ml, num_return_sequences := 1,
        temperature := cr, do_sample := true } = .ok t) :
    submitStep p true prompt ml cr prev =
      (some t,
       [{ prompt := prompt, max_length := ml, num_return_sequences := 1,
          temperature := cr, do_sample := true }], [], []) := by
  simp [submitStep, h, hres]

theorem submitStep_failure (p : Provider) (prompt : String) (ml : ℕ) (cr : ℚ)
    (prev : Option String) (e : String) (h : strTruthy prompt = true)
    (hres : callResult p
      { prompt := prompt, max_length := ml, num_return_sequences := 1,
        temperature := cr, do_sample := true } = .error e) :
    submitStep p true prompt ml cr prev =
      (prev,
       [{ prompt := prompt, max_length := ml, num_return_sequences := 1,
          temperature := cr, do_sample := true }], [],
       ["An error occurred: " ++ e]) := by
  simp [submitStep, h, hres]

theorem submitStep_empty_prompt (p : Provider) (prompt : String) (ml : ℕ)
    (cr : ℚ) (prev : Option String) (h : strTruthy prompt = false) :
    submitStep p true prompt ml cr prev =
      (prev, [], ["Please enter your story idea first!"], []) := by
  simp [submitStep, h]

theorem runScript_ok (p : Provider) (b : Bool) (prompt : String) (lenI : ℕ)
    (crI : ℚ) (prev : Option String) :
    runScript (.ok p) b prompt lenI crI prev =
      { halted := false
        controlsRendered := true
        calls := (submitStep p b prompt (sliderNat 50 300 lenI)
          (sliderRat (1/2) (3/2) crI) prev).2.1
        story := (submitStep p b prompt (sliderNat 50 300 lenI)
          (sliderRat (1/2) (3/2) crI) prev).1
        warnings := (submitStep p b prompt (sliderNat 50 300 lenI)
          (sliderRat (1/2) (3/2) crI) prev).2.2.1
        errors := (submitStep p b prompt (sliderNat 50 300 lenI)
          (sliderRat (1/2) (3/2) crI) prev).2.2.2
        displayedStory := renderDisplay (submitStep p b prompt
          (sliderNat 50 300 lenI) (sliderRat (1/2) (3/2) crI) prev).1 } :=
  rfl

theorem runScript_calls_of_truthy (p : Provider) (prompt : String) (lenI : ℕ)
    (crI : ℚ) (prev : Option String) (h : strTruthy prompt = true) :
    (runScript (.ok p) true prompt lenI crI prev).calls =
      [theCall prompt lenI crI] := by
  rw [runScript_ok]
  unfold submitStep theCall
  simp only [h, if_true]
  split <;> rfl

theorem runScript_calls_cases (p : Provider) (b : Bool) (prompt : String)
    (lenI : ℕ) (crI : ℚ) (prev : Option String) :
    (runScript (.ok p) b prompt lenI crI prev).calls = [] ∨
    (runScript (.ok p) b prompt lenI crI prev).calls =
      [theCall prompt lenI crI] := by
  cases b
  · left
    rfl
  · cases htr : strTruthy prompt
    · left
      rw [runScript_ok, submitStep_empty_prompt p prompt
        (sliderNat 50 300 lenI) (sliderRat (1/2) (3/2) crI) prev htr]
    · right
      exact runScript_calls_of_truthy p prompt lenI crI prev htr

/-! Claim theorems. -/

/-- C1, counterexample: the guard at line 108 is Python truthiness, so a
whitespace-only but non-empty prompt (a single space) passes it: the
provider is called and no warning is shown, refuting the claim that every
empty-or-whitespace prompt yields a warning and no provider call. -/
theorem c1_counterexample :
    whitespaceOnly " " = true ∧
    (runScript (.ok (fun _ => Except.ok ["story"])) true " " 150 (9/10)
      none).calls ≠ [] ∧
    (runScript (.ok (fun _ => Except.ok ["story"])) true " " 150 (9/10)
      none).warnings = [] := by
  rw [runScript_ok,
    submitStep_success (fun _ => Except.ok ["story"]) " "
      (sliderNat 50 300 150) (sliderRat (1/2) (3/2) (9/10)) none "story"
      rfl rfl]
  exact ⟨by decide, by simp, rfl⟩

/-- C1, amended: only a prompt equal to the empty string makes the
controller show the warning and skip the provider call; whitespace-only
non-empty prompts pass the guard. -/
theorem c1_amended_empty_prompt_guard (p : Provider) (lenI : ℕ) (crI : ℚ)
    (prev : Option String) :
    (runScript (.ok p) true "" lenI crI prev).warnings =
      ["Please enter your story idea first!"] ∧
    (runScript (.ok p) true "" lenI crI prev).calls = [] := by
  rw [runScript_ok,
    submitStep_empty_prompt p "" (sliderNat 50 300 lenI)
      (sliderRat (1/2) (3/2) crI) prev rfl]
  exact ⟨rfl, rfl⟩

/-- C2, counterexample: with a previously stored story and a provider call
that raises, the except branch at lines 124-125 only shows the error; the
session slot keeps the old story, which is still displayed, refuting the
claim that the error message is stored as the current result and displayed
in place of story text. -/
theorem c2_counterexample :
    (runScript (.ok (fun _ => Except.error "boom")) true "hi" 150 (9/10)
      (some "old")).errors = ["An error occurred: boom"] ∧
    (runScript (.ok (fun _ => Except.error "boom")) true "hi" 150 (9/10)
      (some "old")).story ≠ some ("An error occurred: boom") ∧
    (runScript (.ok (fun _ => Except.error "boom")) true "hi" 150 (9/10)
      (some "old")).story = some "old" ∧
    (runScript (.ok (fun _ => Except.error "boom")) true "hi" 150 (9/10)
      (some "old")).displayedStory = some "old" := by
  rw [runScript_ok,
    submitStep_failure (fun _ => Except.error "boom") "hi"
      (sliderNat 50 300 150) (sliderRat (1/2) (3/2) (9/10)) (some "old")
      "boom" rfl rfl]
  exact ⟨rfl, by simp, rfl, rfl⟩

/-- C2, amended: when the provider call raises, the error message is shown
via an error element, but the stored session result is unchanged: any
previously stored story remains stored and is still rendered by the
display block. -/
theorem c2_amended_error_not_stored (p : Provider) (prompt : String)
    (lenI : ℕ) (crI : ℚ) (prev : Option String) (e : String)
    (hprompt : prompt ≠ "")
    (herr : callResult p (theCall prompt lenI crI) = .error e) :
    (runScript (.ok p) true prompt lenI crI prev).errors =
      ["An error occurred: " ++ e] ∧
    (runScript (.ok p) true prompt lenI crI prev).story = prev ∧
    (runScript (.ok p) true prompt lenI crI prev).displayedStory =
      renderDisplay prev := by
  have h := (strTruthy_eq_true prompt).mpr hprompt
  rw [runScript_ok,
    submitStep_failure p prompt (sliderNat 50 300 lenI)
      (sliderRat (1/2) (3/2) crI) prev e h herr]
  exact ⟨rfl, rfl, rfl⟩

theorem c2_amended_error_not_stored_witness :
    ("hi" : String) ≠ "" ∧
    callResult (fun _ => Except.error "boom") (theCall "hi" 150 (9/10)) =
      .error "boom" ∧
    ((runScript (.ok (fun _ => Except.error "boom")) true "hi" 150 (9/10)
        (some "old")).errors = ["An error occurred: boom"] ∧
      (runScript (.ok (fun _ => Except.error "boom")) true "hi" 150 (9/10)
        (some "old")).story = some "old" ∧
      (runScript (.ok (fun _ => Except.error "boom")) true "hi" 150 (9/10)
        (some "old")).displayedStory = renderDisplay (some "old")) :=
  ⟨by decide, rfl,
    c2_amended_error_not_stored (fun _ => Except.error "boom") "hi" 150
      (9/10) (some "old") "boom" (by decide) rfl⟩

/-- C3: for a truthy prompt and in-range parameters, the provider is called
exactly once, with exactly those prompt, max_length and temperature values
(plus num_return_sequences=1 and do_sample=True); the first returned
sequence is stored as the session story and rendered by the display
block. -/
theorem c3_valid_submission (p : Provider) (prompt : String) (lenI : ℕ)
    (crI : ℚ) (prev : Option String) (t : String) (rest : List String)
    (hprompt : prompt ≠ "") (hlen1 : 50 ≤ lenI) (hlen2 : lenI ≤ 300)
    (hcr1 : (1/2 : ℚ) ≤ crI) (hcr2 : crI ≤ (3/2 : ℚ))
    (hp : p
      { prompt := prompt, max_length := lenI, num_return_sequences := 1,
        temperature := crI, do_sample := true } = .ok (t :: rest))
    (ht : t ≠ "") :
    (runScript (.ok p) true prompt lenI crI prev).calls =
      [{ prompt := prompt, max_length := lenI, num_return_sequences := 1,
         temperature := crI, do_sample := true }] ∧
    (runScript (.ok p) true prompt lenI crI prev).story = some t ∧
    (runScript (.ok p) true prompt lenI crI prev).displayedStory = some t := by
  have hml := sliderNat_eq 50 300 lenI hlen1 hlen2
  have hcr := sliderRat_eq (1/2) (3/2) crI hcr1 hcr2
  have htr := (strTruthy_eq_true prompt).mpr hprompt
  have htt := (strTruthy_eq_true t).mpr ht
  have hres : callResult p
      { prompt := prompt, max_length := sliderNat 50 300 lenI,
        num_return_sequences := 1, temperature := sliderRat (1/2) (3/2) crI,
        do_sample := true } = .ok t := by
    rw [hml, hcr]
    exact callResult_cons p _ t rest hp
  rw [runScript_ok, submitStep_success p prompt (sliderNat 50 300 lenI)
    (sliderRat (1/2) (3/2) crI) prev t htr hres]
  refine ⟨?_, rfl, ?_⟩
  · rw [hml, hcr]
  · simp [renderDisplay, htt]

theorem c3_valid_submission_witness :
    ("hi" : String) ≠ "" ∧ (50 : ℕ) ≤ 150 ∧ (150 : ℕ) ≤ 300 ∧
    (1/2 : ℚ) ≤ 9/10 ∧ (9/10 : ℚ) ≤ 3/2 ∧
    (fun _ => Except.ok ["Once upon a time"] : Provider)
      { prompt := "hi", max_length := 150, num_return_sequences := 1,
        temperature := 9/10, do_sample := true } =
      .ok ("Once upon a time" :: []) ∧
    ("Once upon a time" : String) ≠ "" ∧
    ((runScript (.ok (fun _ => Except.ok ["Once upon a time"])) true "hi"
        150 (9/10) none).calls =
      [{ prompt := "hi", max_length := 150, num_return_sequences := 1,
         temperature := 9/10, do_sample := true }] ∧
    (runScript (.ok (fun _ => Except.ok ["Once upon a time"])) true "hi"
        150 (9/10) none).story = some "Once upon a time" ∧
    (runScript (.ok (fun _ => Except.ok ["Once upon a time"])) true "hi"
        150 (9/10) none).displayedStory = some "Once upon a time") :=
  ⟨by decide, by decide, by decide, by norm_num, by norm_num, rfl, by decide,
    c3_valid_submission (fun _ => Except.ok ["Once upon a time"]) "hi" 150
      (9/10) none "Once upon a time" [] (by decide) (by decide) (by decide)
      (by norm_num) (by norm_num) rfl (by decide)⟩

/-- C4: every call the script makes to the provider carries a max_length in
[50, 300] and a temperature in [1/2, 3/2], because both values pass through
the slider widgets, which clamp them. -/
theorem c4_call_params_in_range (load : Except String Provider) (b : Bool)
    (prompt : String) (lenI : ℕ) (crI : ℚ) (prev : Option String)
    (c : ProviderCall)
    (hc : c ∈ (runScript load b prompt lenI crI prev).calls) :
    50 ≤ c.max_length ∧ c.max_length ≤ 300 ∧
    (1/2 : ℚ) ≤ c.temperature ∧ c.temperature ≤ (3/2 : ℚ) := by
  have hcases : c = theCall prompt lenI crI := by
    rcases load with e | p
    · simp [runScript] at hc
    · rcases runScript_calls_cases p b prompt lenI crI prev with h | h <;>
        rw [h] at hc
      · simp at hc
      · simpa using hc
  subst hcases
  have h1 := sliderNat_le 50 300 lenI (by omega)
  have h2 := sliderRat_le (1/2 : ℚ) (3/2 : ℚ) crI (by norm_num)
  exact ⟨h1.1, h1.2, h2.1, h2.2⟩

theorem c4_call_params_in_range_witness :
    theCall "hi" 1000 (99/10) ∈
      (runScript (.ok (fun _ => Except.ok ["s"])) true "hi" 1000 (99/10)
        none).calls ∧
    (50 ≤ (theCall "hi" 1000 (99/10)).max_length ∧
      (theCall "hi" 1000 (99/10)).max_length ≤ 300 ∧
      (1/2 : ℚ) ≤ (theCall "hi" 1000 (99/10)).temperature ∧
      (theCall "hi" 1000 (99/10)).temperature ≤ (3/2 : ℚ)) :=
  ⟨by
    rw [runScript_calls_of_truthy (fun _ => Except.ok ["s"]) "hi" 1000
      (99/10) none rfl]
    exact List.mem_singleton_self _,
    c4_call_params_in_range (.ok (fun _ => Except.ok ["s"])) true "hi" 1000
      (99/10) none (theCall "hi" 1000 (99/10))
      (by
        rw [runScript_calls_of_truthy (fun _ => Except.ok ["s"]) "hi" 1000
          (99/10) none rfl]
        exact List.mem_singleton_self _)⟩

/-- C5: a submission with the empty prompt leaves the stored session story
unchanged, shows only the warning, and makes no provider call. -/
theorem c5_empty_prompt_frame (p : Provider) (lenI : ℕ) (crI : ℚ)
    (prev : Option String) :
    (runScript (.ok p) true "" lenI crI prev).story = prev ∧
    (runScript (.ok p) true "" lenI crI prev).warnings =
      ["Please enter your story idea first!"] ∧
    (runScript (.ok p) true "" lenI crI prev).calls = [] := by
  rw [runScript_ok, submitStep_empty_prompt p "" (sliderNat 50 300 lenI)
    (sliderRat (1/2) (3/2) crI) prev rfl]
  exact ⟨rfl, rfl, rfl⟩

/-- C6: an error raised by the provider is caught at the controller
boundary: the run ends normally (no halt) with the error converted to a
user-visible message, and a subsequent submission on the resulting session
state still reaches the provider. -/
theorem c6_provider_error_caught (p q : Provider) (prompt prompt2 : String)
    (lenI lenI2 : ℕ) (crI crI2 : ℚ) (prev : Option String) (e : String)
    (hprompt : prompt ≠ "")
    (herr : callResult p (theCall prompt lenI crI) = .error e)
    (hprompt2 : prompt2 ≠ "") :
    (runScript (.ok p) true prompt lenI crI prev).errors =
      ["An error occurred: " ++ e] ∧
    (runScript (.ok p) true prompt lenI crI prev).halted = false ∧
    (runScript (.ok q) true prompt2 lenI2 crI2
        (runScript (.ok p) true prompt lenI crI prev).story).calls =
      [theCall prompt2 lenI2 crI2] := by
  have h1 := (strTruthy_eq_true prompt).mpr hprompt
  have h2 := (strTruthy_eq_true prompt2).mpr hprompt2
  refine ⟨?_, rfl, runScript_calls_of_truthy q prompt2 lenI2 crI2 _ h2⟩
  rw [runScript_ok, submitStep_failure p prompt (sliderNat 50 300 lenI)
    (sliderRat (1/2) (3/2) crI) prev e h1 herr]

theorem c6_provider_error_caught_witness :
    ("hi" : String) ≠ "" ∧
    callResult (fun _ => Except.error "boom") (theCall "hi" 150 (9/10)) =
      .error "boom" ∧
    ("again" : String) ≠ "" ∧
    ((runScript (.ok (fun _ => Except.error "boom")) true "hi" 150 (9/10)
        none).errors = ["An error occurred: boom"] ∧
    (runScript (.ok (fun _ => Except.error "boom")) true "hi" 150 (9/10)
        none).halted = false ∧
    (runScript (.ok (fun _ => Except.ok ["s"])) true "again" 150 (9/10)
        (runScript (.ok (fun _ => Except.error "boom")) true "hi" 150 (9/10)
          none).story).calls = [theCall "again" 150 (9/10)]) :=
  ⟨by decide, rfl, by decide,
    c6_provider_error_caught (fun _ => Except.error "boom")
      (fun _ => Except.ok ["s"]) "hi" "again" 150 150 (9/10) (9/10) none
      "boom" (by decide) rfl (by decide)⟩

/-- C7: when the model fails to load, the script shows the startup error,
halts via st.stop before rendering any input control, makes no provider
call, and displays no story. -/
theorem c7_startup_failure_halts (e : String) (b : Bool) (prompt : String)
    (lenI : ℕ) (crI : ℚ) (prev : Option String) :
    (runScript (.error e) b prompt lenI crI prev).halted = true ∧
    (runScript (.error e) b prompt lenI crI prev).controlsRendered = false ∧
    (runScript (.error e) b prompt lenI crI prev).calls = [] ∧
    (runScript (.error e) b prompt lenI crI prev).errors =
      ["Error: Could not load the story engine. Please refresh. Details: "
        ++ e] ∧
    (runScript (.error e) b prompt lenI crI prev).displayedStory = none :=
  ⟨rfl, rfl, rfl, rfl, rfl⟩

/-- C8: the session holds a single story slot, and a successful submission
overwrites it with the new text no matter what was stored before: the
resulting story is the same for any two previous states. -/
theorem c8_single_result_overwrite (p : Provider) (prompt : String)
    (lenI : ℕ) (crI : ℚ) (prev prev2 : Option String) (t : String)
    (hprompt : prompt ≠ "")
    (hres : callResult p (theCall prompt lenI crI) = .ok t) :
    (runScript (.ok p) true prompt lenI crI prev).story = some t ∧
    (runScript (.ok p) true prompt lenI crI prev2).story = some t := by
  have h := (strTruthy_eq_true prompt).mpr hprompt
  constructor <;>
    rw [runScript_ok, submitStep_success p prompt (sliderNat 50 300 lenI)
      (sliderRat (1/2) (3/2) crI) _ t h hres]

theorem c8_single_result_overwrite_witness :
    ("hi" : String) ≠ "" ∧
    callResult (fun _ => Except.ok ["new"]) (theCall "hi" 150 (9/10)) =
      .ok "new" ∧
    ((runScript (.ok (fun _ => Except.ok ["new"])) true "hi" 150 (9/10)
        (some "old")).story = some "new" ∧
    (runScript (.ok (fun _ => Except.ok ["new"])) true "hi" 150 (9/10)
        none).story = some "new") :=
  ⟨by decide, rfl,
    c8_single_result_overwrite (fun _ => Except.ok ["new"]) "hi" 150 (9/10)
      (some "old") none "new" (by decide) rfl⟩

/-- C9: in a run where the generate button was not pressed, no provider
call is made, whatever the load outcome, inputs and previous state. -/
theorem c9_no_button_no_call (load : Except String Provider)
    (prompt : String) (lenI : ℕ) (crI : ℚ) (prev : Option String) :
    (runScript load false prompt lenI crI prev).calls = [] := by
  rcases load with e | p
  · rfl
  · rfl

/-- C10: when the provider returns the empty string for a valid submission,
the session story is overwritten with the empty string, the display block
renders nothing (its truthiness guard fails), and no warning or error is
shown, so a previously displayed story disappears silently. -/
theorem c10_empty_story_hidden (p : Provider) (prompt : String) (lenI : ℕ)
    (crI : ℚ) (prev : Option String) (hprompt : prompt ≠ "")
    (hres : callResult p (theCall prompt lenI crI) = .ok "") :
    (runScript (.ok p) true prompt lenI crI prev).story = some "" ∧
    (runScript (.ok p) true prompt lenI crI prev).displayedStory = none ∧
    (runScript (.ok p) true prompt lenI crI prev).warnings = [] ∧
    (runScript (.ok p) true prompt lenI crI prev).errors = [] := by
  have h := (strTruthy_eq_true prompt).mpr hprompt
  rw [runScript_ok, submitStep_success p prompt (sliderNat 50 300 lenI)
    (sliderRat (1/2) (3/2) crI) prev "" h hres]
  exact ⟨rfl, rfl, rfl, rfl⟩

theorem c10_empty_story_hidden_witness :
    ("hi" : String) ≠ "" ∧
    callResult (fun _ => Except.ok [""]) (theCall "hi" 150 (9/10)) =
      .ok "" ∧
    ((runScript (.ok (fun _ => Except.ok [""])) true "hi" 150 (9/10)
        (some "old")).story = some "" ∧
    (runScript (.ok (fun _ => Except.ok [""])) true "hi" 150 (9/10)
        (some "old")).displayedStory = none ∧
    (runScript (.ok (fun _ => Except.ok [""])) true "hi" 150 (9/10)
        (some "old")).warnings = [] ∧
    (runScript (.ok (fun _ => Except.ok [""])) true "hi" 150 (9/10)
        (some "old")).errors = []) :=
  ⟨by decide, rfl,
    c10_empty_story_hidden (fun _ => Except.ok [""]) "hi" 150 (9/10)
      (some "old") (by decide) rfl⟩

end StoryApp
